import Mathlib

/-!
Shallow embedding of the transit-search core of this repository
(`src/search.py`): the BLS period/duration grid construction
(`run_bls`, using `np.linspace` and `np.clip`), the best-candidate
selection (`pick_best`, using `np.nanargmax`), and the persistence
sequencing of `main`.

Floats are modelled as exact rationals extended with `posInf`, `negInf`
and `nan` (IEEE special values); rounding is out of scope.  Python
exceptions are modelled with `Except`; the external BLS power primitive
(`astropy.timeseries.BoxLeastSquares(...).power`) is an explicit
function parameter, since it is an external collaborator that the
repository does not implement.
-/

/-- A Python/numpy float value: a finite rational, an infinity, or NaN. -/
inductive F where
  | fin (q : ℚ)
  | posInf
  | negInf
  | nan
deriving DecidableEq, Repr

/-- `np.isfinite`: true exactly on finite values. -/
def F.isFinite : F → Bool
  | .fin _ => true
  | _ => false

/-- `np.isnan`. -/
def F.isNan : F → Bool
  | .nan => true
  | _ => false

/-- IEEE-style strict comparison `a < b`: any comparison with NaN is false;
`-inf` is below every non-NaN value, `+inf` above. -/
def F.lt : F → F → Bool
  | .nan, _ => false
  | _, .nan => false
  | .negInf, .negInf => false
  | .negInf, _ => true
  | _, .negInf => false
  | .posInf, _ => false
  | _, .posInf => true
  | .fin a, .fin b => decide (a < b)

/-- A raised Python exception.  `valueError` models `ValueError` (the only
exception class `search.py` itself raises, and the one `np.nanargmax`
raises); `searchPrimitiveError` models the wrapper exception the spec
describes for failures of the external BLS primitive (it exists in the
error model so that statements about wrapping can be made); `other`
models any other exception class. -/
inductive PyErr where
  | valueError (msg : String)
  | searchPrimitiveError (context : String) (inner : PyErr)
  | other (msg : String)
deriving DecidableEq, Repr

/-- Whether an exception is the spec's `SearchPrimitiveError` wrapper. -/
def PyErr.isWrapped : PyErr → Bool
  | .searchPrimitiveError _ _ => true
  | _ => false

/-- `np.linspace start stop num` (with `endpoint=True`, the default used at
search.py:40): `num` evenly spaced values over `[start, stop]`; for
`num = 1` the single value is `start`, for `num = 0` the empty array.
In exact rational arithmetic the closed form `start + i*(stop-start)/(num-1)`
already makes the last element exactly `stop`. -/
def linspace (start stop : ℚ) (num : ℕ) : List ℚ :=
  (List.range num).map (fun (i : ℕ) =>
    if num ≤ 1 then start else start + (i : ℚ) * (stop - start) / ((num : ℚ) - 1))

/-- `np.clip x lo hi = min (max x lo) hi`. -/
def clip (x lo hi : ℚ) : ℚ := min (max x lo) hi

/-- search.py:47-51: durations as `fraction * period`, clipped to
`[0.005, 0.5]` days (the bounds are hard-coded in the source). -/
def period_to_duration_guess (periods : List ℚ) (fraction : ℚ) : List ℚ :=
  periods.map (fun p => clip (fraction * p) (5/1000) (1/2))

/-- search.py:33: `mask = np.isfinite(t) & np.isfinite(y)`. -/
def maskFinite (t y : List F) : List Bool :=
  List.zipWith (fun a b => a.isFinite && b.isFinite) t y

/-- Boolean-mask indexing `xs[mask]` on a numpy array: keep the entries at
the positions where the mask is true, in order. -/
def applyMask (xs : List F) (m : List Bool) : List F :=
  (xs.zip m).filterMap (fun p => if p.2 then some p.1 else none)

/-- Replace NaN by `-inf` (the substitution `np.nanargmax` performs before
taking `argmax`). -/
def nanRepl (x : F) : F := if x.isNan then F.negInf else x

/-- `np.argmax` on a one-dimensional array: index of the first occurrence
of the maximum value (the caller `nanargmax` never passes NaNs). -/
def argmax : List F → ℕ
  | [] => 0
  | [_] => 0
  | x :: y :: ys =>
      if F.lt x ((y :: ys).getD (argmax (y :: ys)) F.nan) then argmax (y :: ys) + 1 else 0

/-- `np.nanargmax` on a float array: NaNs are replaced by `-inf`; if every
entry was NaN the `ValueError` "All-NaN slice encountered" is raised (an
empty float array also takes this branch, since `np.all` of an empty mask
is true); otherwise the first index of the maximum of the replaced array. -/
def nanargmax (xs : List F) : Except PyErr ℕ :=
  if xs.all F.isNan then Except.error (PyErr.valueError "All-NaN slice encountered")
  else Except.ok (argmax (xs.map nanRepl))

/-- search.py:58-62 `pick_best`: index of the maximum power via
`np.nanargmax`, then the period and power at that index. -/
def pick_best (periods : List ℚ) (power : List F) : Except PyErr (ℚ × F) :=
  match nanargmax power with
  | Except.error e => Except.error e
  | Except.ok idx =>
    match periods.get? idx, power.get? idx with
    | some bp, some bw => Except.ok (bp, bw)
    | _, _ => Except.error (PyErr.other "IndexError")

/-- Replace a non-finite value (NaN or infinity) by `-inf`, so that it can
never win an `argmax` against a finite value. -/
def nonFiniteRepl (x : F) : F := if x.isFinite then x else F.negInf

/-- Modelled from the spec: the best-candidate selection as §4.1 words it,
"selects the index of the maximum `power` value, ignoring non-finite
entries", with the first index winning ties, and failing when there is no
finite entry at all.  Declared only to be compared against the source's
`pick_best`. -/
def pickBestIgnoringNonFinite (periods : List ℚ) (power : List F) : Except PyErr (ℚ × F) :=
  if power.all (fun w => !w.isFinite) then
    Except.error (PyErr.valueError "no finite power values")
  else
    match periods.get? (argmax (power.map nonFiniteRepl)),
        power.get? (argmax (power.map nonFiniteRepl)) with
    | some bp, some bw => Except.ok (bp, bw)
    | _, _ => Except.error (PyErr.other "IndexError")

/-- The value returned by `run_bls`: the period grid, the duration grid and
the per-period power sequence. -/
structure BLSOut where
  periods : List ℚ
  durations : List ℚ
  power : List F
deriving DecidableEq, Repr

/-- The external BLS power primitive `BoxLeastSquares(t, y).power(periods,
durations)`: takes the (filtered) times and fluxes and the two grids and
either returns one power value per period or raises. -/
def BLSPrim : Type :=
  List F → List F → List ℚ → List ℚ → Except PyErr (List F)

/-- search.py:26-45 `run_bls`: drop samples with non-finite time or flux,
require at least 10 remaining points (else
`ValueError("Not enough valid points for BLS")`), build the period grid
with `np.linspace` and the duration grid with `period_to_duration_guess`,
and delegate to the external primitive.  An exception from the primitive
propagates as-is: the source has no try/except around `bls.power`. -/
def run_bls (prim : BLSPrim) (t y : List F)
    (min_period max_period : ℚ) (n_periods : ℕ) (duration_fraction : ℚ) :
    Except PyErr BLSOut :=
  let m := maskFinite t y
  let tf := applyMask t m
  let yf := applyMask y m
  if tf.length < 10 then
    Except.error (PyErr.valueError "Not enough valid points for BLS")
  else
    let periods := linspace min_period max_period n_periods
    let durations := period_to_duration_guess periods duration_fraction
    match prim tf yf periods durations with
    | Except.error e => Except.error e
    | Except.ok power => Except.ok ⟨periods, durations, power⟩

/-- A file written by `main` (search.py:75-82): the periodogram CSV
(rows `(period, power)` in grid order) or the best-candidate summary
JSON. -/
inductive Artifact where
  | csv (rows : List (ℚ × F))
  | summaryJson (best_period : ℚ) (best_power : F)
deriving DecidableEq, Repr

/-- search.py `main` after loading the lightcurve: run `run_bls`, persist
the CSV, pick the best candidate, persist the summary.  Returns the list
of artifacts actually written (in order) together with the exception that
escaped, if any: an exception raised inside `run_bls` means nothing was
written. -/
def search_main (prim : BLSPrim) (t y : List F)
    (min_period max_period : ℚ) (n_periods : ℕ) :
    List Artifact × Option PyErr :=
  match run_bls prim t y min_period max_period n_periods (5/100) with
  | Except.error e => ([], some e)
  | Except.ok out =>
    let csvFile := Artifact.csv (out.periods.zip out.power)
    match pick_best out.periods out.power with
    | Except.error e => ([csvFile], some e)
    | Except.ok (bp, bw) => ([csvFile, Artifact.summaryJson bp bw], none)

/-- The finiteness predicate on a single (time, flux) pair. -/
def pairFinite (p : F × F) : Bool := p.1.isFinite && p.2.isFinite

/-- A primitive that always succeeds, returning power 0 for every period
(used to instantiate theorems at concrete inputs). -/
def primZero : BLSPrim := fun _ _ ps _ => Except.ok (ps.map (fun _ => F.fin 0))

/-- A primitive that always fails (used to instantiate theorems at concrete
inputs). -/
def primBoom : BLSPrim := fun _ _ _ _ => Except.error (PyErr.other "numerical failure in BLS power")

/-- Ten finite samples, enough to pass the 10-point floor. -/
def tenOnes : List F :=
  [F.fin 1, F.fin 2, F.fin 3, F.fin 4, F.fin 5, F.fin 6, F.fin 7, F.fin 8, F.fin 9, F.fin 10]

lemma applyMask_nil (m : List Bool) : applyMask [] m = [] := by
  simp [applyMask]

lemma applyMask_nil_mask (xs : List F) : applyMask xs [] = [] := by
  simp [applyMask]

lemma applyMask_cons (x : F) (xs : List F) (b : Bool) (m : List Bool) :
    applyMask (x :: xs) (b :: m) = if b then x :: applyMask xs m else applyMask xs m := by
  by_cases hb : b = true
  · simp [applyMask, hb]
  · simp at hb
    simp [applyMask, hb]

lemma applyMask_maskFinite_fst :
    ∀ t y : List F, applyMask t (maskFinite t y) = ((t.zip y).filter pairFinite).map Prod.fst
  | [], y => by simp [maskFinite, applyMask_nil]
  | a :: t, [] => by simp [maskFinite, applyMask_nil_mask]
  | a :: t, b :: y => by
      have ih := applyMask_maskFinite_fst t y
      show applyMask (a :: t) ((a.isFinite && b.isFinite) :: maskFinite t y) = _
      rw [applyMask_cons]
      by_cases h : (a.isFinite && b.isFinite) = true
      · simp [List.zip_cons_cons, List.filter_cons, pairFinite, h, ih]
      · simp [List.zip_cons_cons, List.filter_cons, pairFinite, h, ih]

lemma applyMask_maskFinite_snd :
    ∀ t y : List F, applyMask y (maskFinite t y) = ((t.zip y).filter pairFinite).map Prod.snd
  | [], y => by simp [maskFinite, applyMask_nil_mask]
  | a :: t, [] => by simp [maskFinite, applyMask_nil]
  | a :: t, b :: y => by
      have ih := applyMask_maskFinite_snd t y
      show applyMask (b :: y) ((a.isFinite && b.isFinite) :: maskFinite t y) = _
      rw [applyMask_cons]
      by_cases h : (a.isFinite && b.isFinite) = true
      · simp [List.zip_cons_cons, List.filter_cons, pairFinite, h, ih]
      · simp [List.zip_cons_cons, List.filter_cons, pairFinite, h, ih]

lemma maskFinite_map_pair :
    ∀ l : List (F × F), maskFinite (l.map Prod.fst) (l.map Prod.snd) = l.map pairFinite
  | [] => by simp [maskFinite]
  | p :: l => by
      have ih := maskFinite_map_pair l
      show (p.1.isFinite && p.2.isFinite) :: maskFinite (l.map Prod.fst) (l.map Prod.snd) = _
      rw [ih]
      simp [pairFinite]

lemma applyMask_map (g : F × F → F) (pred : F × F → Bool) :
    ∀ l : List (F × F), applyMask (l.map g) (l.map pred) = (l.filter pred).map g
  | [] => by simp [applyMask_nil]
  | p :: l => by
      have ih := applyMask_map g pred l
      by_cases hb : pred p = true
      · simp [applyMask_cons, List.filter_cons, hb, ih]
      · simp at hb
        simp [applyMask_cons, List.filter_cons, hb, ih]

lemma filter_pairFinite_idem (l : List (F × F)) :
    (l.filter pairFinite).filter pairFinite = l.filter pairFinite := by
  simp [List.filter_filter]

lemma applyMask_maskFinite_idem_fst (t y : List F) :
    applyMask (applyMask t (maskFinite t y))
        (maskFinite (applyMask t (maskFinite t y)) (applyMask y (maskFinite t y))) =
      applyMask t (maskFinite t y) := by
  rw [applyMask_maskFinite_fst t y, applyMask_maskFinite_snd t y, maskFinite_map_pair,
    applyMask_map, filter_pairFinite_idem]

lemma applyMask_maskFinite_idem_snd (t y : List F) :
    applyMask (applyMask y (maskFinite t y))
        (maskFinite (applyMask t (maskFinite t y)) (applyMask y (maskFinite t y))) =
      applyMask y (maskFinite t y) := by
  rw [applyMask_maskFinite_fst t y, applyMask_maskFinite_snd t y, maskFinite_map_pair,
    applyMask_map, filter_pairFinite_idem]

lemma zip_map_fst_snd : ∀ l : List (F × F), (l.map Prod.fst).zip (l.map Prod.snd) = l
  | [] => rfl
  | p :: l => by rw [List.map_cons, List.map_cons, List.zip_cons_cons, zip_map_fst_snd l]

/-- C10: the finiteness filter of `run_bls` drops each sample as a whole
when either component is non-finite: the filtered time and flux sequences
have equal length, their positional pairing is a sublist of the original
pairing (order and alignment are preserved), and every retained pair has
both components finite. -/
theorem claimC10_filter_pairs (t y : List F) :
    (applyMask t (maskFinite t y)).length = (applyMask y (maskFinite t y)).length ∧
    ((applyMask t (maskFinite t y)).zip (applyMask y (maskFinite t y))).Sublist (t.zip y) ∧
    ∀ p ∈ (applyMask t (maskFinite t y)).zip (applyMask y (maskFinite t y)),
      p.1.isFinite = true ∧ p.2.isFinite = true := by
  have hf := applyMask_maskFinite_fst t y
  have hs := applyMask_maskFinite_snd t y
  have hzip : (applyMask t (maskFinite t y)).zip (applyMask y (maskFinite t y)) =
      (t.zip y).filter pairFinite := by
    rw [hf, hs, zip_map_fst_snd]
  refine ⟨?_, ?_, ?_⟩
  · rw [hf, hs]
    simp
  · rw [hzip]
    exact List.filter_sublist _
  · intro p hp
    rw [hzip] at hp
    have h2 := (List.mem_filter.mp hp).2
    simpa [pairFinite] using h2

/-- C6: running the search on a time series is the same as running it on
the time series with the non-finite samples already removed: the
finiteness filter of `run_bls` is equivalent to pre-removal, for every
primitive, configuration and input. -/
theorem claimC6_filter_pre_removal (prim : BLSPrim) (t y : List F)
    (pmin pmax : ℚ) (n : ℕ) (f : ℚ) :
    run_bls prim (applyMask t (maskFinite t y)) (applyMask y (maskFinite t y)) pmin pmax n f =
      run_bls prim t y pmin pmax n f := by
  have h1 := applyMask_maskFinite_idem_fst t y
  have h2 := applyMask_maskFinite_idem_snd t y
  simp only [run_bls, h1, h2]

/-- C4: when fewer than 10 samples survive the finiteness filter,
`run_bls` raises the insufficient-data `ValueError` for every primitive
(so the primitive is never consulted), returns no partial result, and
`main` performs no persistence. -/
theorem claimC4_insufficient_data (prim : BLSPrim) (t y : List F)
    (pmin pmax : ℚ) (n : ℕ) (f : ℚ)
    (h : (applyMask t (maskFinite t y)).length < 10) :
    run_bls prim t y pmin pmax n f =
      Except.error (PyErr.valueError "Not enough valid points for BLS") ∧
    search_main prim t y pmin pmax n =
      ([], some (PyErr.valueError "Not enough valid points for BLS")) := by
  have hr : ∀ g : ℚ, run_bls prim t y pmin pmax n g =
      Except.error (PyErr.valueError "Not enough valid points for BLS") := by
    intro g
    simp only [run_bls]
    rw [if_pos h]
  refine ⟨hr f, ?_⟩
  simp only [search_main, hr (5/100)]

/-- Concrete instance of C4: the empty time series has 0 < 10 valid
points, so the search fails and nothing is persisted. -/
theorem claimC4_insufficient_data_witness :
    run_bls primZero [] [] 1 10 5 (1/20) =
      Except.error (PyErr.valueError "Not enough valid points for BLS") ∧
    search_main primZero [] [] 1 10 5 =
      ([], some (PyErr.valueError "Not enough valid points for BLS")) :=
  claimC4_insufficient_data primZero [] [] 1 10 5 (1/20)
    (by norm_num [maskFinite, applyMask_nil])

lemma linspace_length (a b : ℚ) (n : ℕ) : (linspace a b n).length = n := by
  unfold linspace
  rw [List.length_map, List.length_range]

lemma linspace_getD (a b : ℚ) (n i : ℕ) (hi : i < n) (hn : 2 ≤ n) :
    (linspace a b n).getD i 0 = a + (i : ℚ) * (b - a) / ((n : ℚ) - 1) := by
  have hlen : i < (linspace a b n).length := by rw [linspace_length]; exact hi
  rw [List.getD_eq_getElem _ _ hlen]
  unfold linspace
  rw [List.getElem_map, List.getElem_range, if_neg (by omega)]

lemma linspace_getD_zero (a b : ℚ) (n : ℕ) (hn : 2 ≤ n) :
    (linspace a b n).getD 0 0 = a := by
  rw [linspace_getD a b n 0 (by omega) hn]
  push_cast
  ring

lemma linspace_getD_last (a b : ℚ) (n : ℕ) (hn : 2 ≤ n) :
    (linspace a b n).getD (n - 1) 0 = b := by
  rw [linspace_getD a b n (n - 1) (by omega) hn]
  have h1 : ((n - 1 : ℕ) : ℚ) = (n : ℚ) - 1 := by
    have : (1 : ℕ) ≤ n := by omega
    push_cast [this]
    ring
  have h2 : ((n : ℚ) - 1) ≠ 0 := by
    have : (2 : ℚ) ≤ (n : ℚ) := by exact_mod_cast hn
    intro hcon
    nlinarith
  rw [h1]
  field_simp

lemma linspace_spacing (a b : ℚ) (n i : ℕ) (hi : i + 1 < n) (hn : 2 ≤ n) :
    (linspace a b n).getD (i + 1) 0 - (linspace a b n).getD i 0 =
      (b - a) / ((n : ℚ) - 1) := by
  rw [linspace_getD a b n (i + 1) hi hn, linspace_getD a b n i (by omega) hn]
  push_cast
  ring

lemma linspace_getD_ge (a b : ℚ) (n i : ℕ) (hi : i < n) (hn : 2 ≤ n) (hab : a < b) :
    a ≤ (linspace a b n).getD i 0 := by
  rw [linspace_getD a b n i hi hn]
  have h1 : (0 : ℚ) ≤ (i : ℚ) := Nat.cast_nonneg i
  have h2 : (0 : ℚ) < (n : ℚ) - 1 := by
    have : (2 : ℚ) ≤ (n : ℚ) := by exact_mod_cast hn
    linarith
  have h3 : 0 ≤ (i : ℚ) * (b - a) / ((n : ℚ) - 1) :=
    div_nonneg (mul_nonneg h1 (by linarith)) (le_of_lt h2)
  linarith

lemma run_bls_ok_grids (prim : BLSPrim) (t y : List F) (pmin pmax : ℚ) (n : ℕ) (f : ℚ)
    (out : BLSOut) (h : run_bls prim t y pmin pmax n f = Except.ok out) :
    out.periods = linspace pmin pmax n ∧
    out.durations = period_to_duration_guess (linspace pmin pmax n) f := by
  simp only [run_bls] at h
  split at h
  · exact absurd h (by simp)
  · split at h
    · exact absurd h (by simp)
    · obtain rfl := (Except.ok.inj h).symm
      exact ⟨rfl, rfl⟩

lemma clip_ge_lo (x lo hi : ℚ) (h : lo ≤ hi) : lo ≤ clip x lo hi :=
  le_min (le_max_right x lo) h

lemma clip_le_hi (x lo hi : ℚ) : clip x lo hi ≤ hi := min_le_right _ _

lemma clip_le_of (x lo hi p : ℚ) (hx : x ≤ p) (hlo : lo ≤ p) : clip x lo hi ≤ p :=
  le_trans (min_le_left _ _) (max_le hx hlo)

lemma clip_of_lt_lo (x lo hi : ℚ) (h : x < lo) (hlh : lo ≤ hi) : clip x lo hi = lo := by
  unfold clip
  rw [max_eq_right (le_of_lt h), min_eq_left hlh]

lemma clip_of_hi_lt (x lo hi : ℚ) (h : hi < x) (hlh : lo ≤ hi) : clip x lo hi = hi := by
  unfold clip
  rw [max_eq_left (by linarith), min_eq_right (le_of_lt h)]

lemma period_to_duration_guess_length (ps : List ℚ) (f : ℚ) :
    (period_to_duration_guess ps f).length = ps.length := by
  unfold period_to_duration_guess
  rw [List.length_map]

lemma period_to_duration_guess_getD (ps : List ℚ) (f : ℚ) (i : ℕ) (hi : i < ps.length) :
    (period_to_duration_guess ps f).getD i 0 = clip (f * ps.getD i 0) (5/1000) (1/2) := by
  have h1 : i < (period_to_duration_guess ps f).length := by
    rw [period_to_duration_guess_length]
    exact hi
  rw [List.getD_eq_getElem _ _ h1, List.getD_eq_getElem _ _ hi]
  simp [period_to_duration_guess]

/-- C1: under a valid configuration the period grid that `run_bls` builds
with `np.linspace` has exactly `n` entries, begins at `min_period`, ends
at `max_period`, has constant spacing `(max-min)/(n-1)`, and is exactly
the `periods` component of every successful `run_bls` result. -/
theorem claimC1_period_grid (pmin pmax : ℚ) (n : ℕ)
    (h1 : 0 < pmin) (h2 : pmin < pmax) (h3 : 2 ≤ n) :
    (linspace pmin pmax n).length = n ∧
    (linspace pmin pmax n).getD 0 0 = pmin ∧
    (linspace pmin pmax n).getD (n - 1) 0 = pmax ∧
    (∀ i, i + 1 < n →
      (linspace pmin pmax n).getD (i + 1) 0 - (linspace pmin pmax n).getD i 0 =
        (pmax - pmin) / ((n : ℚ) - 1)) ∧
    ∀ (prim : BLSPrim) (t y : List F) (f : ℚ) (out : BLSOut),
      run_bls prim t y pmin pmax n f = Except.ok out →
        out.periods = linspace pmin pmax n := by
  refine ⟨linspace_length pmin pmax n, linspace_getD_zero pmin pmax n h3,
    linspace_getD_last pmin pmax n h3, fun i hi => linspace_spacing pmin pmax n i hi h3,
    fun prim t y f out h => (run_bls_ok_grids prim t y pmin pmax n f out h).1⟩

/-- Concrete instance of C1 at (1, 2, 3): the grid is [1, 3/2, 2]. -/
theorem claimC1_period_grid_witness :
    (linspace 1 2 3).length = 3 ∧ (linspace 1 2 3).getD 0 0 = 1 ∧
    (linspace 1 2 3).getD 2 0 = 2 :=
  ⟨(claimC1_period_grid 1 2 3 (by norm_num) (by norm_num) (by norm_num)).1,
   (claimC1_period_grid 1 2 3 (by norm_num) (by norm_num) (by norm_num)).2.1,
   (claimC1_period_grid 1 2 3 (by norm_num) (by norm_num) (by norm_num)).2.2.1⟩

/-- C2: the duration grid is index-aligned with the period grid (same
length), each entry is `clip (fraction * period) 0.005 0.5`, and the clamp
takes effect at both extremes: a product below 0.005 yields 0.005 and a
product above 0.5 yields 0.5. -/
theorem claimC2_duration_guess (ps : List ℚ) (f : ℚ) :
    (period_to_duration_guess ps f).length = ps.length ∧
    (∀ i, i < ps.length →
      (period_to_duration_guess ps f).getD i 0 = clip (f * ps.getD i 0) (5/1000) (1/2)) ∧
    (∀ p : ℚ, f * p < 5/1000 → clip (f * p) (5/1000) (1/2) = 5/1000) ∧
    (∀ p : ℚ, 1/2 < f * p → clip (f * p) (5/1000) (1/2) = 1/2) := by
  refine ⟨period_to_duration_guess_length ps f,
    fun i hi => period_to_duration_guess_getD ps f i hi,
    fun p hp => clip_of_lt_lo _ _ _ hp (by norm_num),
    fun p hp => clip_of_hi_lt _ _ _ hp (by norm_num)⟩

/-- Concrete instance of C2: for fraction 1/20, the duration for period 10
is the unclamped 1/2... the duration for period 1/10 is clamped up to
0.005, and for period 100 clamped down to 0.5. -/
theorem claimC2_duration_guess_witness :
    (period_to_duration_guess [10, 20] (1/20)).getD 0 0 =
      clip ((1/20) * ([10, 20] : List ℚ).getD 0 0) (5/1000) (1/2) ∧
    clip ((1/100) * (1/10)) (5/1000) (1/2) = 5/1000 ∧
    clip ((1/20) * 100) (5/1000) (1/2) = 1/2 :=
  ⟨(claimC2_duration_guess [10, 20] (1/20)).2.1 0 (by norm_num),
   (claimC2_duration_guess [] (1/100)).2.2.1 (1/10) (by norm_num),
   (claimC2_duration_guess [] (1/20)).2.2.2 100 (by norm_num)⟩

/-- C7 counterexample: under the valid configuration
(min=1/1000, max=2/1000, n=2, fraction=1/20) both durations are clamped
up to 5/1000, which is greater than both periods, refuting "no duration
value is greater than its associated period". -/
theorem claimC7_counterexample :
    (0 : ℚ) < 1/1000 ∧ (1/1000 : ℚ) < 2/1000 ∧
    linspace (1/1000) (2/1000) 2 = [1/1000, 2/1000] ∧
    period_to_duration_guess (linspace (1/1000) (2/1000) 2) (1/20) = [5/1000, 5/1000] ∧
    ¬ (5/1000 : ℚ) ≤ 1/1000 := by
  refine ⟨by norm_num, by norm_num, ?_, ?_, by norm_num⟩ <;>
    norm_num [linspace, period_to_duration_guess, clip, List.range_succ]

/-- C7 amended: every duration of the generated grid lies in
[0.005, 0.5]; the "duration never greater than its period" part holds
under the additional assumptions that the fraction is at most 1 and the
minimum period is at least the 0.005 clamp floor (the counterexample
shows it fails below that floor). -/
theorem claimC7_duration_bounds (pmin pmax f : ℚ) (n : ℕ)
    (h1 : 0 < pmin) (h2 : pmin < pmax) (h3 : 2 ≤ n) :
    (∀ i, i < n →
      5/1000 ≤ (period_to_duration_guess (linspace pmin pmax n) f).getD i 0 ∧
      (period_to_duration_guess (linspace pmin pmax n) f).getD i 0 ≤ 1/2) ∧
    (f ≤ 1 → 5/1000 ≤ pmin → ∀ i, i < n →
      (period_to_duration_guess (linspace pmin pmax n) f).getD i 0 ≤
        (linspace pmin pmax n).getD i 0) := by
  have hlen : ∀ i, i < n → i < (linspace pmin pmax n).length := by
    intro i hi
    rw [linspace_length]
    exact hi
  constructor
  · intro i hi
    rw [period_to_duration_guess_getD _ _ _ (hlen i hi)]
    exact ⟨clip_ge_lo _ _ _ (by norm_num), clip_le_hi _ _ _⟩
  · intro hf hfloor i hi
    rw [period_to_duration_guess_getD _ _ _ (hlen i hi)]
    have hp : pmin ≤ (linspace pmin pmax n).getD i 0 := linspace_getD_ge pmin pmax n i hi h3 h2
    have hppos : 0 ≤ (linspace pmin pmax n).getD i 0 := by linarith
    refine clip_le_of _ _ _ _ ?_ (by linarith)
    calc f * (linspace pmin pmax n).getD i 0 ≤ 1 * (linspace pmin pmax n).getD i 0 :=
          mul_le_mul_of_nonneg_right hf hppos
      _ = (linspace pmin pmax n).getD i 0 := one_mul _

/-- Concrete instance of amended C7 at the default configuration
(0.5, 10, n=2, fraction=1/20). -/
theorem claimC7_duration_bounds_witness :
    (5/1000 ≤ (period_to_duration_guess (linspace (1/2) 10 2) (1/20)).getD 0 0 ∧
      (period_to_duration_guess (linspace (1/2) 10 2) (1/20)).getD 0 0 ≤ 1/2) ∧
    (period_to_duration_guess (linspace (1/2) 10 2) (1/20)).getD 0 0 ≤
      (linspace (1/2) 10 2).getD 0 0 :=
  ⟨(claimC7_duration_bounds (1/2) 10 (1/20) 2 (by norm_num) (by norm_num) (by norm_num)).1
      0 (by norm_num),
   (claimC7_duration_bounds (1/2) 10 (1/20) 2 (by norm_num) (by norm_num) (by norm_num)).2
      (by norm_num) (by norm_num) 0 (by norm_num)⟩

/-- C8 counterexample: `run_bls` raises nothing for a reversed range
(max_period = 1 < 2 = min_period) nor for n_periods = 1: the grid is
built anyway and the call succeeds, refuting the claimed
InvalidRangeError / InvalidCountError validation. -/
theorem claimC8_counterexample :
    run_bls primZero tenOnes tenOnes 2 1 5 (1/20) =
      Except.ok ⟨[2, 7/4, 3/2, 5/4, 1], [1/10, 7/80, 3/40, 1/16, 1/20],
        [F.fin 0, F.fin 0, F.fin 0, F.fin 0, F.fin 0]⟩ ∧
    run_bls primZero tenOnes tenOnes (1/2) 10 1 (1/20) =
      Except.ok ⟨[1/2], [1/40], [F.fin 0]⟩ := by
  constructor <;>
    norm_num [run_bls, tenOnes, maskFinite, applyMask, F.isFinite, primZero,
      linspace, period_to_duration_guess, clip, List.range_succ, List.filterMap_cons]

/-- C8 amended: `run_bls` performs no validation of the search
configuration: the only exceptions it can raise are the insufficient-data
ValueError and an exception of the external primitive itself, so a
malformed (min_period, max_period, n_periods) is never rejected. -/
theorem claimC8_no_validation (prim : BLSPrim) (t y : List F)
    (pmin pmax : ℚ) (n : ℕ) (f : ℚ) (e : PyErr)
    (h : run_bls prim t y pmin pmax n f = Except.error e) :
    e = PyErr.valueError "Not enough valid points for BLS" ∨
    prim (applyMask t (maskFinite t y)) (applyMask y (maskFinite t y))
        (linspace pmin pmax n) (period_to_duration_guess (linspace pmin pmax n) f) =
      Except.error e := by
  simp only [run_bls] at h
  split at h
  · left
    exact (Except.error.inj h).symm
  · right
    split at h
    · rename_i e' heq
      rw [heq]
      rw [Except.error.inj h]
    · exact absurd h (by simp)

/-- Concrete instance of amended C8: on the empty series the raised error
is the insufficient-data one. -/
theorem claimC8_no_validation_witness :
    PyErr.valueError "Not enough valid points for BLS" =
        PyErr.valueError "Not enough valid points for BLS" ∨
    primZero (applyMask [] (maskFinite [] [])) (applyMask [] (maskFinite [] []))
        (linspace 1 2 5) (period_to_duration_guess (linspace 1 2 5) (1/20)) =
      Except.error (PyErr.valueError "Not enough valid points for BLS") :=
  claimC8_no_validation primZero [] [] 1 2 5 (1/20)
    (PyErr.valueError "Not enough valid points for BLS")
    (by norm_num [run_bls, maskFinite, applyMask_nil])

/-- C9 counterexample: when the primitive fails, `run_bls` propagates the
primitive's own exception verbatim — the result is not wrapped in the
spec's SearchPrimitiveError (the source has no try/except around
`bls.power`). -/
theorem claimC9_counterexample :
    run_bls primBoom tenOnes tenOnes (1/2) 10 3 (1/20) =
      Except.error (PyErr.other "numerical failure in BLS power") ∧
    PyErr.isWrapped (PyErr.other "numerical failure in BLS power") = false := by
  constructor
  · simp only [run_bls]
    rw [if_neg (by decide)]
    rfl
  · rfl

/-- C9 amended: when at least 10 valid samples remain and the external
primitive fails with exception `e`, `run_bls` surfaces exactly `e` to its
caller (unwrapped, no context added, no retry) and returns no result. -/
theorem claimC9_primitive_propagation (prim : BLSPrim) (t y : List F)
    (pmin pmax : ℚ) (n : ℕ) (f : ℚ) (e : PyErr)
    (hlen : ¬ (applyMask t (maskFinite t y)).length < 10)
    (hp : prim (applyMask t (maskFinite t y)) (applyMask y (maskFinite t y))
        (linspace pmin pmax n) (period_to_duration_guess (linspace pmin pmax n) f) =
      Except.error e) :
    run_bls prim t y pmin pmax n f = Except.error e := by
  simp only [run_bls]
  rw [if_neg hlen, hp]

/-- Concrete instance of amended C9: a failing primitive's exception is
surfaced by `run_bls` as-is. -/
theorem claimC9_primitive_propagation_witness :
    run_bls primBoom tenOnes tenOnes (1/2) 10 3 (1/20) =
      Except.error (PyErr.other "numerical failure in BLS power") :=
  claimC9_primitive_propagation primBoom tenOnes tenOnes (1/2) 10 3 (1/20)
    (PyErr.other "numerical failure in BLS power") (by decide) rfl

lemma F.lt_irrefl (x : F) : F.lt x x = false := by
  cases x <;> simp [F.lt]

lemma F.lt_asymm (x y : F) (h : F.lt x y = true) : F.lt y x = false := by
  cases x <;> cases y <;> simp_all [F.lt] <;> linarith

lemma F.not_lt_trans (x y z : F) (hy : y.isNan = false)
    (h1 : F.lt x y = false) (h2 : F.lt y z = false) : F.lt x z = false := by
  cases x <;> cases y <;> cases z <;> simp_all [F.lt, F.isNan] <;> linarith

lemma getD_mem {α : Type} (l : List α) (d : α) (i : ℕ) (h : i < l.length) :
    l.getD i d ∈ l := by
  rw [List.getD_eq_getElem _ _ h]
  exact List.getElem_mem h

lemma get?_eq_some_getD {α : Type} (l : List α) (d : α) (i : ℕ) (h : i < l.length) :
    l.get? i = some (l.getD i d) := by
  rw [List.getD_eq_getElem _ _ h, List.get?_eq_getElem?, List.getElem?_eq_getElem h]

lemma getD_map_nanRepl (l : List F) (i : ℕ) (h : i < l.length) :
    (l.map nanRepl).getD i F.nan = nanRepl (l.getD i F.nan) := by
  have h2 : i < (l.map nanRepl).length := by rw [List.length_map]; exact h
  rw [List.getD_eq_getElem _ _ h2, List.getD_eq_getElem _ _ h, List.getElem_map]

lemma nanRepl_not_nan (x : F) : (nanRepl x).isNan = false := by
  cases x <;> simp [nanRepl, F.isNan]

lemma argmax_spec :
    ∀ xs : List F, (∀ x ∈ xs, x.isNan = false) → xs ≠ [] →
      argmax xs < xs.length ∧
      (∀ k, k < xs.length → F.lt (xs.getD (argmax xs) F.nan) (xs.getD k F.nan) = false) ∧
      (∀ k, k < argmax xs → F.lt (xs.getD k F.nan) (xs.getD (argmax xs) F.nan) = true)
  | [], _, hne => absurd rfl hne
  | [x], h, _ => by
      refine ⟨by simp [argmax], ?_, ?_⟩
      · intro k hk
        simp only [List.length_singleton] at hk
        obtain rfl : k = 0 := by omega
        simp [argmax, F.lt_irrefl]
      · intro k hk
        simp [argmax] at hk
  | x :: y :: ys, h, _ => by
      obtain ⟨ih1, ih2, ih3⟩ :=
        argmax_spec (y :: ys) (fun a ha => h a (List.mem_cons_of_mem x ha)) (by simp)
      have hvmem : (y :: ys).getD (argmax (y :: ys)) F.nan ∈ y :: ys :=
        getD_mem _ _ _ ih1
      have hvnan : ((y :: ys).getD (argmax (y :: ys)) F.nan).isNan = false :=
        h _ (List.mem_cons_of_mem x hvmem)
      by_cases hc : F.lt x ((y :: ys).getD (argmax (y :: ys)) F.nan) = true
      · have harg : argmax (x :: y :: ys) = argmax (y :: ys) + 1 := by
          rw [argmax, if_pos hc]
        rw [harg]
        refine ⟨by simpa using ih1, ?_, ?_⟩
        · intro k hk
          rw [List.getD_cons_succ]
          match k with
          | 0 =>
            rw [List.getD_cons_zero]
            exact F.lt_asymm _ _ hc
          | k' + 1 =>
            rw [List.getD_cons_succ]
            exact ih2 k' (by simpa using hk)
        · intro k hk
          rw [List.getD_cons_succ]
          match k with
          | 0 =>
            rw [List.getD_cons_zero]
            exact hc
          | k' + 1 =>
            rw [List.getD_cons_succ]
            exact ih3 k' (by omega)
      · have hc' : F.lt x ((y :: ys).getD (argmax (y :: ys)) F.nan) = false :=
          Bool.not_eq_true _ ▸ (by simpa using hc)
        have harg : argmax (x :: y :: ys) = 0 := by
          rw [argmax, if_neg hc]
        rw [harg]
        refine ⟨by simp, ?_, ?_⟩
        · intro k hk
          rw [List.getD_cons_zero]
          match k with
          | 0 =>
            rw [List.getD_cons_zero]
            exact F.lt_irrefl x
          | k' + 1 =>
            rw [List.getD_cons_succ]
            exact F.not_lt_trans x _ _ hvnan hc' (ih2 k' (by simpa using hk))
        · intro k hk
          exact absurd hk (by omega)

/-- C5 amended: `pick_best` fails with numpy's ValueError — the failure
the spec names EmptyResultError / AllNonFiniteError — whenever every
power entry is NaN, which includes the empty power sequence (an empty
float array takes numpy's All-NaN branch); no fallback candidate is
returned.  The counterexample shows that an all-non-finite sequence
containing an infinity does NOT fail, contrary to the original claim. -/
theorem claimC5_pick_best_failures (ps : List ℚ) (ws : List F)
    (h : ws.all F.isNan = true) :
    pick_best ps ws = Except.error (PyErr.valueError "All-NaN slice encountered") := by
  unfold pick_best nanargmax
  rw [if_pos h]

/-- Concrete instances of amended C5: the empty periodogram and the
all-NaN periodogram both fail. -/
theorem claimC5_pick_best_failures_witness :
    pick_best [] [] = Except.error (PyErr.valueError "All-NaN slice encountered") ∧
    pick_best [1] [F.nan] =
      Except.error (PyErr.valueError "All-NaN slice encountered") :=
  ⟨claimC5_pick_best_failures [] [] rfl, claimC5_pick_best_failures [1] [F.nan] rfl⟩

/-- C5 counterexample: every power value in [+inf, +inf] is non-finite,
yet `pick_best` does not fail — it returns (1, +inf).  `np.nanargmax`
only rejects all-NaN input; infinities are legitimate maxima for it. -/
theorem claimC5_counterexample :
    List.all [F.posInf, F.posInf] (fun w => !w.isFinite) = true ∧
    pick_best [1, 2] [F.posInf, F.posInf] = Except.ok (1, F.posInf) :=
  ⟨rfl, rfl⟩

/-- C3 amended: for equal-length inputs with at least one non-NaN power,
`pick_best` returns the (period, power) pair at the first index attaining
the maximum of the power sequence with NaN replaced by -inf: NaN entries
are ignored, ties go to the lowest index, and the spec's example
pickBest([1,2,3],[0.5,0.9,0.9]) = (2,0.9) holds — but infinite entries
participate in the maximum instead of being ignored (see the
counterexample). -/
theorem claimC3_pick_best_first_max (ps : List ℚ) (ws : List F)
    (hlen : ps.length = ws.length) (hnn : ws.all F.isNan = false) :
    (∃ i, i < ws.length ∧
      pick_best ps ws = Except.ok (ps.getD i 0, ws.getD i F.nan) ∧
      (∀ k, k < ws.length →
        F.lt (nanRepl (ws.getD i F.nan)) (nanRepl (ws.getD k F.nan)) = false) ∧
      (∀ k, k < i →
        F.lt (nanRepl (ws.getD k F.nan)) (nanRepl (ws.getD i F.nan)) = true)) ∧
    pick_best [1, 2, 3] [F.fin (1/2), F.fin (9/10), F.fin (9/10)] =
      Except.ok (2, F.fin (9/10)) := by
  constructor
  · have hne : ws ≠ [] := by
      intro hcon
      subst hcon
      simp at hnn
    have hmapne : ws.map nanRepl ≠ [] := by
      intro hcon
      exact hne (List.map_eq_nil_iff.mp hcon)
    obtain ⟨h1, h2, h3⟩ :=
      argmax_spec (ws.map nanRepl) (fun a ha => by
        obtain ⟨b, _, rfl⟩ := List.mem_map.mp ha
        exact nanRepl_not_nan b) hmapne
    rw [List.length_map] at h1
    refine ⟨argmax (ws.map nanRepl), h1, ?_, ?_, ?_⟩
    · have hna : nanargmax ws = Except.ok (argmax (ws.map nanRepl)) := by
        unfold nanargmax
        rw [if_neg (by simp [hnn])]
      have hp : ps.get? (argmax (ws.map nanRepl)) =
          some (ps.getD (argmax (ws.map nanRepl)) 0) :=
        get?_eq_some_getD ps 0 _ (by rw [hlen]; exact h1)
      have hw : ws.get? (argmax (ws.map nanRepl)) =
          some (ws.getD (argmax (ws.map nanRepl)) F.nan) :=
        get?_eq_some_getD ws F.nan _ h1
      simp only [pick_best, hna]
      rw [hp, hw]
    · intro k hk
      have := h2 k (by rw [List.length_map]; exact hk)
      rwa [getD_map_nanRepl ws _ h1, getD_map_nanRepl ws _ hk] at this
    · intro k hk
      have := h3 k hk
      rwa [getD_map_nanRepl ws _ h1,
        getD_map_nanRepl ws _ (lt_trans hk h1)] at this
  · norm_num [pick_best, nanargmax, argmax, nanRepl, F.lt, F.isNan]

/-- Concrete instance of amended C3: the spec's tie-break example. -/
theorem claimC3_pick_best_first_max_witness :
    pick_best [1, 2, 3] [F.fin (1/2), F.fin (9/10), F.fin (9/10)] =
      Except.ok (2, F.fin (9/10)) :=
  (claimC3_pick_best_first_max [1, 2, 3] [F.fin (1/2), F.fin (9/10), F.fin (9/10)]
    rfl rfl).2

/-- C3 counterexample: with powers [+inf, 0.5] the source's `pick_best`
selects the non-finite entry +inf at index 0, whereas the selection the
spec describes (ignore non-finite entries) would return (2, 0.5):
`np.nanargmax` ignores only NaN, not infinities. -/
theorem claimC3_counterexample :
    pick_best [1, 2] [F.posInf, F.fin (1/2)] = Except.ok (1, F.posInf) ∧
    pickBestIgnoringNonFinite [1, 2] [F.posInf, F.fin (1/2)] =
      Except.ok (2, F.fin (1/2)) ∧
    F.isFinite F.posInf = false :=
  ⟨rfl, rfl, rfl⟩

example : linspace 1 2 3 = [1, 3/2, 2] := by
  norm_num [linspace, List.range_succ]
example : linspace 2 1 5 = [2, 7/4, 3/2, 5/4, 1] := by
  norm_num [linspace, List.range_succ]
example : linspace 1 2 1 = [1] := by
  norm_num [linspace, List.range_succ]
example : clip (1/1000) (5/1000) (1/2) = 5/1000 := by
  norm_num [clip]
example : argmax [F.fin (1/2), F.fin (9/10), F.fin (9/10)] = 1 := by
  norm_num [argmax, F.lt]
example :
    pick_best [1, 2, 3] [F.fin (1/2), F.fin (9/10), F.fin (9/10)] =
      Except.ok (2, F.fin (9/10)) := by
  norm_num [pick_best, nanargmax, argmax, nanRepl, F.lt, F.isNan]
example :
    pick_best [1, 2] [F.posInf, F.fin (1/2)] = Except.ok (1, F.posInf) := by
  norm_num [pick_best, nanargmax, argmax, nanRepl, F.lt, F.isNan]
example : pick_best [1, 2] [F.nan, F.negInf] = Except.ok (1, F.nan) := by
  norm_num [pick_best, nanargmax, argmax, nanRepl, F.lt, F.isNan]
example :
    pick_best ([] : List ℚ) [] =
      Except.error (PyErr.valueError "All-NaN slice encountered") := by
  norm_num [pick_best, nanargmax]
